import Mathlib

/-!
Shallow embedding of `src/nm-keep-alive.c` (NetworkManager's `NMKeepAlive`
liveness tracker).

The C object's private state (`NMKeepAlivePrivate`) becomes the record
`KeepAliveState`.  External resources are abstracted as follows:

* the watched `NMSettingsConnection *` becomes `connection : Option Nat`
  (pointer identity); the external object's `VISIBLE` flag, which the code
  reads through `nm_settings_connection_get_flags`, is mirrored in the field
  `connVisible` (a visibility-flags-changed event updates this mirror and
  then runs the `connection_flags_changed` callback);
* the `GDBusConnection *` becomes `dbus_connection : Option Nat`;
* the `GCancellable *dbus_client_confirm_cancellable` becomes
  `cancellable : Option Unit` (present iff a confirmation request is in
  flight; `nm_clear_g_cancellable` cancels it and clears the field);
* the `guint subscription_id` returned by
  `g_dbus_connection_signal_subscribe` becomes `subscription_id : Option Nat`
  (`some token` while the NameOwnerChanged subscription is active, `none`
  after `g_dbus_connection_signal_unsubscribe`).

Every operation that may recompute liveness returns an `OpResult`:
the successor state, whether `_notify (self, PROP_ALIVE)` fired, and how
many asynchronous `GetNameOwner` bus requests (`g_dbus_connection_call`)
were issued during the operation.
-/

namespace NMKeepAlive

/-- The fields of `NMKeepAlivePrivate`, plus the mirrored visibility flag of
the watched settings connection. -/
structure KeepAliveState where
  connection : Option Nat
  connVisible : Bool
  dbus_connection : Option Nat
  dbus_client : Option String
  cancellable : Option Unit
  subscription_id : Option Nat
  floating : Bool
  forced : Bool
  alive : Bool
  dbus_client_confirmed : Bool
  deriving DecidableEq, Repr

/-- Result of an operation: successor state, whether the PROP_ALIVE
notification fired, and the number of async GetNameOwner requests issued. -/
structure OpResult where
  state : KeepAliveState
  notified : Bool
  requests : Nat
  deriving DecidableEq, Repr

/-- Result of `_is_alive`: the boolean it returns, the successor state and
the number of async GetNameOwner requests issued as a side effect. -/
structure AliveResult where
  value : Bool
  state : KeepAliveState
  requests : Nat
  deriving DecidableEq, Repr

/-- The check `priv->connection && NM_FLAGS_HAS (get_flags (priv->connection),
NM_SETTINGS_CONNECTION_INT_FLAGS_VISIBLE)`. -/
def conn_visible (s : KeepAliveState) : Bool :=
  s.connection.isSome && s.connVisible

/-- `_is_alive_dbus_client`: false when no client is watched; otherwise true,
issuing one async GetNameOwner request the first time it runs unconfirmed
(setting `dbus_client_confirmed` and creating the cancellable). -/
def _is_alive_dbus_client (s : KeepAliveState) : AliveResult :=
  match s.dbus_client with
  | none => ⟨false, s, 0⟩
  | some _ =>
    if s.dbus_client_confirmed then ⟨true, s, 0⟩
    else ⟨true, { s with dbus_client_confirmed := true, cancellable := some () }, 1⟩

/-- `_is_alive`: floating or forced, else a visible settings connection,
else the (side-effecting) dbus-client check. -/
def _is_alive (s : KeepAliveState) : AliveResult :=
  if s.floating || s.forced then ⟨true, s, 0⟩
  else if conn_visible s then ⟨true, s, 0⟩
  else
    let r := _is_alive_dbus_client s
    if r.value then ⟨true, r.state, r.requests⟩
    else ⟨false, r.state, r.requests⟩

/-- `_notify_alive`: recompute; if the cached `alive` equals the recomputed
value do nothing, else flip `alive` and fire the PROP_ALIVE notification. -/
def _notify_alive (s : KeepAliveState) : OpResult :=
  let r := _is_alive s
  if s.alive = r.value then ⟨r.state, false, r.requests⟩
  else ⟨{ r.state with alive := !s.alive }, true, r.requests⟩

/-- `nm_keep_alive_is_alive`: returns the cached value, no side effects. -/
def nm_keep_alive_is_alive (s : KeepAliveState) : Bool :=
  s.alive

/-- `nm_keep_alive_sink`: clear `floating` if set and re-notify. -/
def nm_keep_alive_sink (s : KeepAliveState) : OpResult :=
  if s.floating then _notify_alive { s with floating := false }
  else ⟨s, false, 0⟩

/-- `nm_keep_alive_set_forced`: store a changed `forced` flag and
re-notify; a call with the current value does nothing. -/
def nm_keep_alive_set_forced (forced : Bool) (s : KeepAliveState) : OpResult :=
  if s.forced ≠ forced then _notify_alive { s with forced := forced }
  else ⟨s, false, 0⟩

/-- `connection_flags_changed` signal callback: just re-notify. -/
def connection_flags_changed (s : KeepAliveState) : OpResult :=
  _notify_alive s

/-- `_set_settings_connection_watch_visible`: early return when the same
connection is passed; otherwise replace the reference (the new source's
current VISIBLE flag is `vis`) and, when `emit_signal`, re-notify. -/
def _set_settings_connection_watch_visible (connection : Option Nat) (vis : Bool)
    (emit_signal : Bool) (s : KeepAliveState) : OpResult :=
  if s.connection = connection then ⟨s, false, 0⟩
  else
    let s1 := { s with connection := connection, connVisible := vis }
    if emit_signal then _notify_alive s1 else ⟨s1, false, 0⟩

/-- `nm_keep_alive_set_settings_connection_watch_visible`: the public entry
point, always with `emit_signal = TRUE`. -/
def nm_keep_alive_set_settings_connection_watch_visible (connection : Option Nat)
    (vis : Bool) (s : KeepAliveState) : OpResult :=
  _set_settings_connection_watch_visible connection vis true s

/-- `cleanup_dbus_watch`: no-op when no client is watched; otherwise cancel
and clear the cancellable, free the client string, and if a dbus connection
is held, unsubscribe the NameOwnerChanged subscription and drop it. -/
def cleanup_dbus_watch (s : KeepAliveState) : KeepAliveState :=
  match s.dbus_client with
  | none => s
  | some _ =>
    let s1 := { s with cancellable := none, dbus_client := none }
    if s1.dbus_connection.isSome then
      { s1 with dbus_connection := none, subscription_id := none }
    else s1

/-- Outcome of the async GetNameOwner call delivered to `get_name_owner_cb`:
cancelled, failed with another error, or succeeded with the owner string. -/
inductive ConfirmResult where
  | cancelled
  | failed
  | success (owner : String)
  deriving DecidableEq, Repr

/-- `get_name_owner_cb`: return on cancellation; return on a matching owner;
otherwise tear down the watch and re-notify. -/
def get_name_owner_cb (res : ConfirmResult) (s : KeepAliveState) : OpResult :=
  match res with
  | .cancelled => ⟨s, false, 0⟩
  | .success owner =>
    if s.dbus_client = some owner then ⟨s, false, 0⟩
    else _notify_alive (cleanup_dbus_watch s)
  | .failed => _notify_alive (cleanup_dbus_watch s)

/-- `name_owner_changed_cb`: ignore events whose new owner is non-empty;
on an empty new owner tear down the watch and re-notify. -/
def name_owner_changed_cb (new_owner : String) (s : KeepAliveState) : OpResult :=
  if new_owner ≠ "" then ⟨s, false, 0⟩
  else _notify_alive (cleanup_dbus_watch s)

/-- The watch-replacement part of `nm_keep_alive_set_dbus_client_watch`:
tear down any existing watch and, when a client address is given, store it,
reset `dbus_client_confirmed`, take the dbus connection and subscribe to
NameOwnerChanged (the bus-issued subscription token is `token`). -/
def set_dbus_client_watch_store (connection : Nat) (client_address : Option String)
    (token : Nat) (s : KeepAliveState) : KeepAliveState :=
  let s1 := cleanup_dbus_watch s
  match client_address with
  | some addr =>
    { s1 with dbus_client := some addr,
              dbus_client_confirmed := false,
              dbus_connection := some connection,
              subscription_id := some token }
  | none => s1

/-- `nm_keep_alive_set_dbus_client_watch`: replace the watch, then
re-notify. -/
def nm_keep_alive_set_dbus_client_watch (connection : Nat)
    (client_address : Option String) (token : Nat) (s : KeepAliveState) : OpResult :=
  _notify_alive (set_dbus_client_watch_store connection client_address token s)

/-- `nm_keep_alive_new`: `g_object_new` zero-initializes the private struct,
then `floating` is set from the argument and `alive` to TRUE. -/
def nm_keep_alive_new (floating : Bool) : KeepAliveState :=
  { connection := none
    connVisible := false
    dbus_connection := none
    dbus_client := none
    cancellable := none
    subscription_id := none
    floating := floating
    forced := false
    alive := true
    dbus_client_confirmed := false }

/-- Modelled from the spec: the precedence-ordered derivation rule of
section 4.1 — floating, else forced, else a present-and-visible visibility
source, else a believed-present watched client, else not alive. -/
def derive (s : KeepAliveState) : Bool :=
  if s.floating then true
  else if s.forced then true
  else if s.connection.isSome && s.connVisible then true
  else if s.dbus_client.isSome then true
  else false

/-- The mutations and asynchronous callbacks of the tracker.
`flagsChanged b` is the external settings connection changing its VISIBLE
flag to `b`, which fires the `connection_flags_changed` callback. -/
inductive Mutation where
  | sink
  | setForced (b : Bool)
  | flagsChanged (b : Bool)
  | setWatchVisible (c : Option Nat) (vis : Bool)
  | setClientWatch (conn : Nat) (addr : Option String) (tok : Nat)
  | confirmReply (r : ConfirmResult)
  | ownerChanged (new_owner : String)
  deriving DecidableEq, Repr

/-- Dispatch a mutation to the corresponding source function. -/
def applyMutation (m : Mutation) (s : KeepAliveState) : OpResult :=
  match m with
  | .sink => nm_keep_alive_sink s
  | .setForced b => nm_keep_alive_set_forced b s
  | .flagsChanged b => connection_flags_changed { s with connVisible := b }
  | .setWatchVisible c vis => nm_keep_alive_set_settings_connection_watch_visible c vis s
  | .setClientWatch conn addr tok => nm_keep_alive_set_dbus_client_watch conn addr tok s
  | .confirmReply r => get_name_owner_cb r s
  | .ownerChanged o => name_owner_changed_cb o s

/-- Total number of async GetNameOwner requests issued along a sequence of
mutations. -/
def traceRequests (s : KeepAliveState) : List Mutation → Nat
  | [] => 0
  | m :: ms => (applyMutation m s).requests + traceRequests (applyMutation m s).state ms

/-- Whether a mutation is a `nm_keep_alive_set_dbus_client_watch` call
(an arm or a teardown of the client watch). -/
def isClientWatchSet : Mutation → Bool
  | .setClientWatch _ _ _ => true
  | _ => false

/-! ### Characterization lemmas for the recomputation step -/

theorem is_alive_value (s : KeepAliveState) : (_is_alive s).value = derive s := by
  rcases s with ⟨c, v, dc, cl, ca, su, fl, fo, al, cf⟩
  cases fl <;> cases fo <;> cases c <;> cases v <;> cases cl <;> cases cf <;> rfl

theorem notify_alive_alive (s : KeepAliveState) :
    (_notify_alive s).state.alive = derive s := by
  rcases s with ⟨c, v, dc, cl, ca, su, fl, fo, al, cf⟩
  cases fl <;> cases fo <;> cases c <;> cases v <;> cases cl <;> cases cf <;>
    cases al <;> rfl

theorem notify_alive_notified (s : KeepAliveState) :
    (_notify_alive s).notified = (derive s != s.alive) := by
  rcases s with ⟨c, v, dc, cl, ca, su, fl, fo, al, cf⟩
  cases fl <;> cases fo <;> cases c <;> cases v <;> cases cl <;> cases cf <;>
    cases al <;> rfl

theorem derive_notify_alive (s : KeepAliveState) :
    derive (_notify_alive s).state = derive s := by
  rcases s with ⟨c, v, dc, cl, ca, su, fl, fo, al, cf⟩
  cases fl <;> cases fo <;> cases c <;> cases v <;> cases cl <;> cases cf <;>
    cases al <;> rfl

theorem notify_alive_requests (s : KeepAliveState) :
    (_notify_alive s).requests =
      (if !s.floating && !s.forced && !conn_visible s
          && s.dbus_client.isSome && !s.dbus_client_confirmed then 1 else 0) := by
  rcases s with ⟨c, v, dc, cl, ca, su, fl, fo, al, cf⟩
  cases fl <;> cases fo <;> cases c <;> cases v <;> cases cl <;> cases cf <;>
    cases al <;> rfl

theorem notify_alive_confirmed (s : KeepAliveState) :
    (_notify_alive s).state.dbus_client_confirmed =
      (s.dbus_client_confirmed
        || (!s.floating && !s.forced && !conn_visible s && s.dbus_client.isSome)) := by
  rcases s with ⟨c, v, dc, cl, ca, su, fl, fo, al, cf⟩
  cases fl <;> cases fo <;> cases c <;> cases v <;> cases cl <;> cases cf <;>
    cases al <;> rfl

theorem notify_alive_frame (s : KeepAliveState) :
    (_notify_alive s).state.connection = s.connection
    ∧ (_notify_alive s).state.connVisible = s.connVisible
    ∧ (_notify_alive s).state.dbus_connection = s.dbus_connection
    ∧ (_notify_alive s).state.dbus_client = s.dbus_client
    ∧ (_notify_alive s).state.subscription_id = s.subscription_id
    ∧ (_notify_alive s).state.floating = s.floating
    ∧ (_notify_alive s).state.forced = s.forced := by
  rcases s with ⟨c, v, dc, cl, ca, su, fl, fo, al, cf⟩
  cases fl <;> cases fo <;> cases c <;> cases v <;> cases cl <;> cases cf <;>
    cases al <;> exact ⟨rfl, rfl, rfl, rfl, rfl, rfl, rfl⟩

theorem cleanup_confirmed (s : KeepAliveState) :
    (cleanup_dbus_watch s).dbus_client_confirmed = s.dbus_client_confirmed := by
  rcases s with ⟨c, v, dc, cl, ca, su, fl, fo, al, cf⟩
  cases cl <;> cases dc <;> rfl

theorem cleanup_client (s : KeepAliveState) :
    (cleanup_dbus_watch s).dbus_client = none ∨ cleanup_dbus_watch s = s := by
  rcases s with ⟨c, v, dc, cl, ca, su, fl, fo, al, cf⟩
  cases cl <;> cases dc
  · exact Or.inr rfl
  · exact Or.inr rfl
  · exact Or.inl rfl
  · exact Or.inl rfl

theorem cleanup_client_none (s : KeepAliveState) :
    (cleanup_dbus_watch s).dbus_client = none := by
  rcases s with ⟨c, v, dc, cl, ca, su, fl, fo, al, cf⟩
  cases cl <;> cases dc <;> rfl

theorem cleanup_alive (s : KeepAliveState) :
    (cleanup_dbus_watch s).alive = s.alive := by
  rcases s with ⟨c, v, dc, cl, ca, su, fl, fo, al, cf⟩
  cases cl <;> cases dc <;> rfl

theorem store_alive (conn : Nat) (addr : Option String) (tok : Nat) (s : KeepAliveState) :
    (set_dbus_client_watch_store conn addr tok s).alive = s.alive := by
  rcases s with ⟨c, v, dc, cl, ca, su, fl, fo, al, cf⟩
  cases addr <;> cases cl <;> cases dc <;> rfl

theorem notify_alive_flip (s : KeepAliveState) :
    (_notify_alive s).notified = ((_notify_alive s).state.alive != s.alive) := by
  rcases s with ⟨c, v, dc, cl, ca, su, fl, fo, al, cf⟩
  cases fl <;> cases fo <;> cases c <;> cases v <;> cases cl <;> cases cf <;>
    cases al <;> rfl

theorem notify_req_le (s : KeepAliveState) : (_notify_alive s).requests ≤ 1 := by
  rw [notify_alive_requests]; split <;> decide

theorem notify_req_confirm (s : KeepAliveState) :
    (_notify_alive s).requests = 1 → (_notify_alive s).state.dbus_client_confirmed = true := by
  intro h
  rw [notify_alive_requests] at h
  rw [notify_alive_confirmed]
  by_cases hcond : (!s.floating && !s.forced && !conn_visible s
      && s.dbus_client.isSome && !s.dbus_client_confirmed) = true
  · simp only [Bool.and_eq_true, Bool.not_eq_true'] at hcond
    obtain ⟨⟨⟨⟨hfl, hfo⟩, hvis⟩, hcl⟩, hcf⟩ := hcond
    simp [hfl, hfo, hvis, hcl]
  · rw [if_neg hcond] at h
    exact absurd h (by decide)

theorem notify_confirmed_stable (s : KeepAliveState)
    (h : s.dbus_client_confirmed = true) :
    (_notify_alive s).requests = 0
    ∧ (_notify_alive s).state.dbus_client_confirmed = true := by
  constructor
  · rw [notify_alive_requests]; simp [h]
  · rw [notify_alive_confirmed, h]; simp

theorem sink_floating (s : KeepAliveState) :
    (nm_keep_alive_sink s).state.floating = false := by
  rcases s with ⟨c, v, dc, cl, ca, su, fl, fo, al, cf⟩
  cases fl <;> cases fo <;> cases c <;> cases v <;> cases cl <;> cases cf <;>
    cases al <;> rfl

theorem sink_skip (s : KeepAliveState) (h : s.floating = false) :
    nm_keep_alive_sink s = ⟨s, false, 0⟩ := by
  simp [nm_keep_alive_sink, h]

/-! ### Mutation-level lemmas -/

theorem mut_notified_flip (m : Mutation) (s : KeepAliveState) :
    (applyMutation m s).notified = ((applyMutation m s).state.alive != s.alive) := by
  cases m with
  | sink =>
    simp only [applyMutation, nm_keep_alive_sink]
    split
    · exact notify_alive_flip _
    · simp
  | setForced b =>
    simp only [applyMutation, nm_keep_alive_set_forced]
    split
    · exact notify_alive_flip _
    · simp
  | flagsChanged b =>
    exact notify_alive_flip _
  | setWatchVisible c vis =>
    simp only [applyMutation, nm_keep_alive_set_settings_connection_watch_visible,
      _set_settings_connection_watch_visible]
    split
    · simp
    · exact notify_alive_flip _
  | setClientWatch conn addr tok =>
    simp only [applyMutation, nm_keep_alive_set_dbus_client_watch]
    rw [notify_alive_flip, store_alive]
  | confirmReply r =>
    cases r with
    | cancelled => simp [applyMutation, get_name_owner_cb]
    | failed =>
      simp only [applyMutation, get_name_owner_cb]
      rw [notify_alive_flip, cleanup_alive]
    | success o =>
      simp only [applyMutation, get_name_owner_cb]
      split
      · simp
      · rw [notify_alive_flip, cleanup_alive]
  | ownerChanged o =>
    simp only [applyMutation, name_owner_changed_cb]
    split
    · simp
    · rw [notify_alive_flip, cleanup_alive]

theorem mut_invariant (m : Mutation) (s : KeepAliveState) (h : s.alive = derive s) :
    (applyMutation m s).state.alive = derive (applyMutation m s).state := by
  cases m with
  | sink =>
    simp only [applyMutation, nm_keep_alive_sink]
    split
    · rw [notify_alive_alive, derive_notify_alive]
    · exact h
  | setForced b =>
    simp only [applyMutation, nm_keep_alive_set_forced]
    split
    · rw [notify_alive_alive, derive_notify_alive]
    · exact h
  | flagsChanged b =>
    simp only [applyMutation, connection_flags_changed]
    rw [notify_alive_alive, derive_notify_alive]
  | setWatchVisible c vis =>
    simp only [applyMutation, nm_keep_alive_set_settings_connection_watch_visible,
      _set_settings_connection_watch_visible]
    split
    · exact h
    · simp only [if_true]
      rw [notify_alive_alive, derive_notify_alive]
  | setClientWatch conn addr tok =>
    simp only [applyMutation, nm_keep_alive_set_dbus_client_watch]
    rw [notify_alive_alive, derive_notify_alive]
  | confirmReply r =>
    cases r with
    | cancelled => exact h
    | failed =>
      simp only [applyMutation, get_name_owner_cb]
      rw [notify_alive_alive, derive_notify_alive]
    | success o =>
      simp only [applyMutation, get_name_owner_cb]
      split
      · exact h
      · rw [notify_alive_alive, derive_notify_alive]
  | ownerChanged o =>
    simp only [applyMutation, name_owner_changed_cb]
    split
    · exact h
    · rw [notify_alive_alive, derive_notify_alive]

theorem mut_req_le (m : Mutation) (s : KeepAliveState) :
    (applyMutation m s).requests ≤ 1 := by
  cases m with
  | sink =>
    simp only [applyMutation, nm_keep_alive_sink]
    split
    · exact notify_req_le _
    · simp
  | setForced b =>
    simp only [applyMutation, nm_keep_alive_set_forced]
    split
    · exact notify_req_le _
    · simp
  | flagsChanged b => exact notify_req_le _
  | setWatchVisible c vis =>
    simp only [applyMutation, nm_keep_alive_set_settings_connection_watch_visible,
      _set_settings_connection_watch_visible]
    split
    · simp
    · exact notify_req_le _
  | setClientWatch conn addr tok => exact notify_req_le _
  | confirmReply r =>
    cases r with
    | cancelled => simp [applyMutation, get_name_owner_cb]
    | failed => exact notify_req_le _
    | success o =>
      simp only [applyMutation, get_name_owner_cb]
      split
      · simp
      · exact notify_req_le _
  | ownerChanged o =>
    simp only [applyMutation, name_owner_changed_cb]
    split
    · simp
    · exact notify_req_le _

theorem mut_req_confirm (m : Mutation) (s : KeepAliveState) :
    (applyMutation m s).requests = 1 →
    (applyMutation m s).state.dbus_client_confirmed = true := by
  cases m with
  | sink =>
    simp only [applyMutation, nm_keep_alive_sink]
    split
    · exact notify_req_confirm _
    · intro h; simp at h
  | setForced b =>
    simp only [applyMutation, nm_keep_alive_set_forced]
    split
    · exact notify_req_confirm _
    · intro h; simp at h
  | flagsChanged b => exact notify_req_confirm _
  | setWatchVisible c vis =>
    simp only [applyMutation, nm_keep_alive_set_settings_connection_watch_visible,
      _set_settings_connection_watch_visible]
    split
    · intro h; simp at h
    · exact notify_req_confirm _
  | setClientWatch conn addr tok => exact notify_req_confirm _
  | confirmReply r =>
    cases r with
    | cancelled => intro h; simp [applyMutation, get_name_owner_cb] at h
    | failed => exact notify_req_confirm _
    | success o =>
      simp only [applyMutation, get_name_owner_cb]
      split
      · intro h; simp at h
      · exact notify_req_confirm _
  | ownerChanged o =>
    simp only [applyMutation, name_owner_changed_cb]
    split
    · intro h; simp at h
    · exact notify_req_confirm _

theorem mut_confirmed_stable (m : Mutation) (s : KeepAliveState)
    (hm : isClientWatchSet m = false) (h : s.dbus_client_confirmed = true) :
    (applyMutation m s).requests = 0
    ∧ (applyMutation m s).state.dbus_client_confirmed = true := by
  have hclean : (cleanup_dbus_watch s).dbus_client_confirmed = true := by
    rw [cleanup_confirmed]; exact h
  cases m with
  | sink =>
    simp only [applyMutation, nm_keep_alive_sink]
    split
    · exact notify_confirmed_stable _ h
    · exact ⟨rfl, h⟩
  | setForced b =>
    simp only [applyMutation, nm_keep_alive_set_forced]
    split
    · exact notify_confirmed_stable _ h
    · exact ⟨rfl, h⟩
  | flagsChanged b => exact notify_confirmed_stable _ h
  | setWatchVisible c vis =>
    simp only [applyMutation, nm_keep_alive_set_settings_connection_watch_visible,
      _set_settings_connection_watch_visible]
    split
    · exact ⟨rfl, h⟩
    · exact notify_confirmed_stable _ h
  | setClientWatch conn addr tok => simp [isClientWatchSet] at hm
  | confirmReply r =>
    cases r with
    | cancelled => exact ⟨rfl, h⟩
    | failed => exact notify_confirmed_stable _ hclean
    | success o =>
      simp only [applyMutation, get_name_owner_cb]
      split
      · exact ⟨rfl, h⟩
      · exact notify_confirmed_stable _ hclean
  | ownerChanged o =>
    simp only [applyMutation, name_owner_changed_cb]
    split
    · exact ⟨rfl, h⟩
    · exact notify_confirmed_stable _ hclean

theorem trace_le (ops : List Mutation) : ∀ s : KeepAliveState,
    (∀ m ∈ ops, isClientWatchSet m = false) →
    traceRequests s ops ≤ 1
    ∧ (s.dbus_client_confirmed = true → traceRequests s ops = 0) := by
  induction ops with
  | nil => intro s _; simp [traceRequests]
  | cons m ms ih =>
    intro s hops
    have hm : isClientWatchSet m = false := hops m (List.mem_cons_self m ms)
    have hms : ∀ m' ∈ ms, isClientWatchSet m' = false :=
      fun m' hm' => hops m' (List.mem_cons_of_mem m hm')
    have hle := mut_req_le m s
    constructor
    · rcases Nat.le_one_iff_eq_zero_or_eq_one.mp hle with h0 | h1
      · have := (ih (applyMutation m s).state hms).1
        simp only [traceRequests]
        omega
      · have hconf := mut_req_confirm m s h1
        have := (ih (applyMutation m s).state hms).2 hconf
        simp only [traceRequests]
        omega
    · intro hc
      have hstab := mut_confirmed_stable m s hm hc
      have := (ih (applyMutation m s).state hms).2 hstab.2
      simp only [traceRequests]
      omega

/-! ### Claim theorems -/

/-- Claim C1: for every tracker state, the liveness value recomputed by
`_is_alive` equals the precedence-ordered derivation rule `derive`
(floating implies alive, else forced implies alive, else a present and
visible settings connection implies alive, else a present dbus client
implies alive, else not alive), and a recomputation caches exactly that
value. -/
theorem isAlive_matches_derivation_rule (s : KeepAliveState) :
    (_is_alive s).value = derive s ∧ (_notify_alive s).state.alive = derive s :=
  ⟨is_alive_value s, notify_alive_alive s⟩

/-- Claim C2: under the cache invariant, every mutation or asynchronous
callback fires the PROP_ALIVE notification iff the newly derived liveness
value differs from the previously cached one; in particular, setting
`forced` to its current value, or sinking a second time, never notifies. -/
theorem notify_fires_iff_derived_changed (m : Mutation) (s : KeepAliveState) :
    (s.alive = derive s →
      ((applyMutation m s).notified = true
        ↔ derive (applyMutation m s).state ≠ s.alive))
    ∧ (nm_keep_alive_set_forced s.forced s).notified = false
    ∧ (nm_keep_alive_sink (nm_keep_alive_sink s).state).notified = false := by
  refine ⟨?_, ?_, ?_⟩
  · intro h
    rw [mut_notified_flip m s, mut_invariant m s h]
    exact bne_iff_ne
  · simp [nm_keep_alive_set_forced]
  · rw [sink_skip _ (sink_floating s)]

/-- Witness for C2: the sink mutation on a freshly created tracker. -/
theorem notify_fires_iff_derived_changed_witness :
    (applyMutation .sink (nm_keep_alive_new true)).notified = true
      ↔ derive (applyMutation .sink (nm_keep_alive_new true)).state
          ≠ (nm_keep_alive_new true).alive :=
  (notify_fires_iff_derived_changed .sink (nm_keep_alive_new true)).1 rfl

/-- Claim C3: a tracker created floating starts floating and alive, the
cached alive flag equals the derivation rule right after construction, and
every mutation and asynchronous callback preserves that invariant. -/
theorem new_tracker_floating_alive_invariant :
    (nm_keep_alive_new true).floating = true
    ∧ (nm_keep_alive_new true).alive = true
    ∧ (nm_keep_alive_new true).alive = derive (nm_keep_alive_new true)
    ∧ ∀ (m : Mutation) (s : KeepAliveState),
        s.alive = derive s →
        (applyMutation m s).state.alive = derive (applyMutation m s).state :=
  ⟨rfl, rfl, rfl, fun m s h => mut_invariant m s h⟩

/-- Witness for C3: invariant preservation at a concrete mutation. -/
theorem new_tracker_floating_alive_invariant_witness :
    (applyMutation (.setForced true) (nm_keep_alive_new true)).state.alive
      = derive (applyMutation (.setForced true) (nm_keep_alive_new true)).state :=
  new_tracker_floating_alive_invariant.2.2.2 (.setForced true)
    (nm_keep_alive_new true) rfl

/-- Claim C4 counterexample: sinking a fresh tracker and then arming a client
watch — with `nm_keep_alive_is_alive` never called — already issues one
asynchronous GetNameOwner confirmation request, because arming itself runs a
liveness recomputation. -/
theorem arming_issues_confirmation_counterexample :
    (nm_keep_alive_set_dbus_client_watch 1 (some "client.X") 7
        (nm_keep_alive_sink (nm_keep_alive_new true)).state).requests = 1 := by
  rfl

/-- Claim C4 (amended): the public `nm_keep_alive_is_alive` only reads the
cache; the asynchronous confirmation request is issued by liveness
recomputation, exactly when the evaluation reaches the unconfirmed-client
check, and issuing it marks the client confirmed so no later recomputation
issues again; arming itself recomputes, so it issues the request exactly
when neither floating, forced nor a visible connection short-circuits the
evaluation. -/
theorem confirmation_issued_by_recomputation (s : KeepAliveState)
    (conn tok : Nat) (a : String) :
    ((_notify_alive s).requests =
      if !s.floating && !s.forced && !conn_visible s
          && s.dbus_client.isSome && !s.dbus_client_confirmed then 1 else 0)
    ∧ ((_notify_alive s).requests = 1 →
        (_notify_alive s).state.dbus_client_confirmed = true)
    ∧ (s.dbus_client_confirmed = true → (_notify_alive s).requests = 0)
    ∧ ((nm_keep_alive_set_dbus_client_watch conn (some a) tok s).requests =
        if !s.floating && !s.forced && !conn_visible s then 1 else 0) := by
  refine ⟨notify_alive_requests s, notify_req_confirm s,
    fun h => (notify_confirmed_stable s h).1, ?_⟩
  rcases s with ⟨c, v, dc, cl, ca, su, fl, fo, al, cf⟩
  cases fl <;> cases fo <;> cases c <;> cases v <;> cases cl <;> cases dc <;>
    cases cf <;> cases al <;> rfl

/-- Witness for the amended C4: with the client confirmed a recomputation
issues no request; with it unconfirmed and unprotected a recomputation
issues one and marks it confirmed. -/
theorem confirmation_issued_by_recomputation_witness :
    (_notify_alive { nm_keep_alive_new true with
        floating := false, alive := false,
        dbus_client := some "client.X", dbus_client_confirmed := true }).requests = 0
    ∧ (_notify_alive { nm_keep_alive_new true with
        floating := false, alive := false,
        dbus_client := some "client.X" }).state.dbus_client_confirmed = true :=
  ⟨(confirmation_issued_by_recomputation _ 0 0 "x").2.2.1 rfl,
   (confirmation_issued_by_recomputation _ 0 0 "x").2.1 rfl⟩

/-- Claim C5 counterexample: at a state already watching connection 0,
passing that same connection again returns through the early exit without
recomputing or notifying, although the notification step, had it run, would
have fired (the derived value true differs from the cached false). -/
theorem same_source_reset_skips_counterexample :
    (nm_keep_alive_set_settings_connection_watch_visible (some 0) true
        { nm_keep_alive_new true with
          floating := false, alive := false,
          connection := some 0, connVisible := true }).notified = false
    ∧ (nm_keep_alive_set_settings_connection_watch_visible (some 0) true
        { nm_keep_alive_new true with
          floating := false, alive := false,
          connection := some 0, connVisible := true }).state.alive = false
    ∧ (_notify_alive
        { nm_keep_alive_new true with
          floating := false, alive := false,
          connection := some 0, connVisible := true }).notified = true :=
  ⟨rfl, rfl, rfl⟩

/-- Claim C5 (amended): a call that changes the watched visibility source
replaces it, recomputes and runs the notification step; a call that passes
the already-watched source returns immediately, leaving the state unchanged
with no notification. -/
theorem watch_visible_replacement_behavior (c : Option Nat) (vis : Bool)
    (s : KeepAliveState) :
    (s.connection ≠ c →
      nm_keep_alive_set_settings_connection_watch_visible c vis s
        = _notify_alive { s with connection := c, connVisible := vis })
    ∧ (s.connection = c →
      nm_keep_alive_set_settings_connection_watch_visible c vis s
        = ⟨s, false, 0⟩) := by
  constructor
  · intro h
    simp [nm_keep_alive_set_settings_connection_watch_visible,
      _set_settings_connection_watch_visible, h]
  · intro h
    simp [nm_keep_alive_set_settings_connection_watch_visible,
      _set_settings_connection_watch_visible, h]

/-- Witness for the amended C5: replacing no source by connection 0. -/
theorem watch_visible_replacement_behavior_witness :
    nm_keep_alive_set_settings_connection_watch_visible (some 0) true
        (nm_keep_alive_new true)
      = _notify_alive { nm_keep_alive_new true with
          connection := some 0, connVisible := true } :=
  (watch_visible_replacement_behavior (some 0) true (nm_keep_alive_new true)).1
    (by decide)

/-- Claim C6: when the GetNameOwner confirmation completes — cancelled: no
state change and no notification; success with a matching owner: no state
change and no notification; failure, or success with a mismatched owner:
the watch is torn down (the client identity cleared) and liveness is
recomputed through the notification step. -/
theorem confirmation_completion_cases (s : KeepAliveState) (o : String) :
    (get_name_owner_cb .cancelled s = ⟨s, false, 0⟩)
    ∧ (s.dbus_client = some o → get_name_owner_cb (.success o) s = ⟨s, false, 0⟩)
    ∧ (get_name_owner_cb .failed s = _notify_alive (cleanup_dbus_watch s)
        ∧ (get_name_owner_cb .failed s).state.dbus_client = none)
    ∧ (s.dbus_client ≠ some o →
        get_name_owner_cb (.success o) s = _notify_alive (cleanup_dbus_watch s)
          ∧ (get_name_owner_cb (.success o) s).state.dbus_client = none) := by
  refine ⟨rfl, ?_, ⟨rfl, ?_⟩, ?_⟩
  · intro h
    simp [get_name_owner_cb, h]
  · show (_notify_alive (cleanup_dbus_watch s)).state.dbus_client = none
    rw [(notify_alive_frame (cleanup_dbus_watch s)).2.2.2.1, cleanup_client_none]
  · intro h
    constructor
    · simp [get_name_owner_cb, h]
    · simp only [get_name_owner_cb]
      rw [if_neg h]
      rw [(notify_alive_frame (cleanup_dbus_watch s)).2.2.2.1, cleanup_client_none]

/-- Witness for C6: a matching reply leaves an armed tracker unchanged; a
mismatched reply clears the client identity. -/
theorem confirmation_completion_cases_witness :
    get_name_owner_cb (.success "client.X")
        { nm_keep_alive_new true with
          floating := false, dbus_client := some "client.X",
          dbus_connection := some 1, subscription_id := some 7,
          dbus_client_confirmed := true }
      = ⟨{ nm_keep_alive_new true with
          floating := false, dbus_client := some "client.X",
          dbus_connection := some 1, subscription_id := some 7,
          dbus_client_confirmed := true }, false, 0⟩
    ∧ (get_name_owner_cb (.success "someone.else")
        { nm_keep_alive_new true with
          floating := false, dbus_client := some "client.X",
          dbus_connection := some 1, subscription_id := some 7,
          dbus_client_confirmed := true }).state.dbus_client = none :=
  ⟨(confirmation_completion_cases _ "client.X").2.1 rfl,
   ((confirmation_completion_cases _ "someone.else").2.2.2 (by decide)).2⟩

/-- Claim C7: arming a client watch stores the watch with the confirmed flag
reset to false, and the arming call plus any following sequence of mutations
that does not re-arm or tear down the watch issues at most one asynchronous
confirmation request in total. -/
theorem at_most_one_confirmation_per_arm (conn tok : Nat) (a : String)
    (s : KeepAliveState) (ops : List Mutation)
    (hops : ∀ m ∈ ops, isClientWatchSet m = false) :
    (set_dbus_client_watch_store conn (some a) tok s).dbus_client_confirmed = false
    ∧ (nm_keep_alive_set_dbus_client_watch conn (some a) tok s).requests
        + traceRequests
            (nm_keep_alive_set_dbus_client_watch conn (some a) tok s).state ops
        ≤ 1 := by
  constructor
  · rfl
  · have harm : (nm_keep_alive_set_dbus_client_watch conn (some a) tok s).requests ≤ 1 :=
      notify_req_le _
    rcases Nat.le_one_iff_eq_zero_or_eq_one.mp harm with h0 | h1
    · have := (trace_le ops
        (nm_keep_alive_set_dbus_client_watch conn (some a) tok s).state hops).1
      omega
    · have hconf : (nm_keep_alive_set_dbus_client_watch conn
          (some a) tok s).state.dbus_client_confirmed = true :=
        notify_req_confirm _ h1
      have := (trace_le ops
        (nm_keep_alive_set_dbus_client_watch conn (some a) tok s).state hops).2 hconf
      omega

/-- Witness for C7: arming after a sink, then three recomputing mutations. -/
theorem at_most_one_confirmation_per_arm_witness :
    (set_dbus_client_watch_store 1 (some "client.X") 7
        (nm_keep_alive_sink (nm_keep_alive_new true)).state).dbus_client_confirmed
      = false
    ∧ (nm_keep_alive_set_dbus_client_watch 1 (some "client.X") 7
          (nm_keep_alive_sink (nm_keep_alive_new true)).state).requests
        + traceRequests
            (nm_keep_alive_set_dbus_client_watch 1 (some "client.X") 7
              (nm_keep_alive_sink (nm_keep_alive_new true)).state).state
            [.sink, .setForced true, .setForced false]
        ≤ 1 :=
  at_most_one_confirmation_per_arm 1 7 "client.X"
    (nm_keep_alive_sink (nm_keep_alive_new true)).state
    [.sink, .setForced true, .setForced false] (by decide)

/-- Claim C8: a NameOwnerChanged event with a non-empty new owner leaves the
tracker entirely unchanged with no notification; an empty new owner tears
the watch down (clearing the client identity) and recomputes liveness
through the notification step. -/
theorem owner_changed_cases (s : KeepAliveState) (o : String) :
    (o ≠ "" → name_owner_changed_cb o s = ⟨s, false, 0⟩)
    ∧ (name_owner_changed_cb "" s = _notify_alive (cleanup_dbus_watch s)
        ∧ (name_owner_changed_cb "" s).state.dbus_client = none) := by
  refine ⟨?_, ?_, ?_⟩
  · intro h
    simp [name_owner_changed_cb, h]
  · simp [name_owner_changed_cb]
  · show (_notify_alive (cleanup_dbus_watch s)).state.dbus_client = none
    rw [(notify_alive_frame (cleanup_dbus_watch s)).2.2.2.1, cleanup_client_none]

/-- Witness for C8: a non-empty new owner is ignored. -/
theorem owner_changed_cases_witness :
    name_owner_changed_cb "new.owner" (nm_keep_alive_new true)
      = ⟨nm_keep_alive_new true, false, 0⟩ :=
  (owner_changed_cases (nm_keep_alive_new true) "new.owner").1 (by decide)

/-- Claim C9: tearing down the client watch cancels and clears the pending
confirmation cancellable, clears the client identity, and, when a bus
connection is held, unsubscribes the NameOwnerChanged subscription and
releases the connection; with no client watched the teardown is a no-op,
and teardown is idempotent. -/
theorem cleanup_dbus_watch_teardown (s : KeepAliveState) :
    (s.dbus_client = none → cleanup_dbus_watch s = s)
    ∧ (s.dbus_client ≠ none →
        (cleanup_dbus_watch s).cancellable = none
        ∧ (cleanup_dbus_watch s).dbus_client = none
        ∧ (s.dbus_connection ≠ none →
            (cleanup_dbus_watch s).dbus_connection = none
            ∧ (cleanup_dbus_watch s).subscription_id = none))
    ∧ cleanup_dbus_watch (cleanup_dbus_watch s) = cleanup_dbus_watch s := by
  rcases s with ⟨c, v, dc, cl, ca, su, fl, fo, al, cf⟩
  cases cl <;> cases dc <;> refine ⟨?_, ?_, ?_⟩ <;> simp [cleanup_dbus_watch]

/-- Witness for C9: no-op on a fresh tracker; client cleared on an armed
one. -/
theorem cleanup_dbus_watch_teardown_witness :
    cleanup_dbus_watch (nm_keep_alive_new true) = nm_keep_alive_new true
    ∧ (cleanup_dbus_watch { nm_keep_alive_new true with
          dbus_client := some "client.X", dbus_connection := some 1,
          subscription_id := some 7, cancellable := some () }).dbus_client = none :=
  ⟨(cleanup_dbus_watch_teardown (nm_keep_alive_new true)).1 rfl,
   ((cleanup_dbus_watch_teardown _).2.1 (by decide)).2.1⟩

/-- Claim C10: `nm_keep_alive_sink` never modifies the forced flag, the
watched settings connection (nor its mirrored visibility flag), the watched
client identity, the dbus connection, or the subscription; only floating,
the cached alive value, the confirmed flag and the pending cancellable may
change. -/
theorem sink_frame (s : KeepAliveState) :
    (nm_keep_alive_sink s).state.forced = s.forced
    ∧ (nm_keep_alive_sink s).state.connection = s.connection
    ∧ (nm_keep_alive_sink s).state.connVisible = s.connVisible
    ∧ (nm_keep_alive_sink s).state.dbus_client = s.dbus_client
    ∧ (nm_keep_alive_sink s).state.dbus_connection = s.dbus_connection
    ∧ (nm_keep_alive_sink s).state.subscription_id = s.subscription_id := by
  rcases s with ⟨c, v, dc, cl, ca, su, fl, fo, al, cf⟩
  cases fl <;> cases fo <;> cases c <;> cases v <;> cases cl <;> cases cf <;>
    cases al <;> exact ⟨rfl, rfl, rfl, rfl, rfl, rfl⟩

end NMKeepAlive
